import Mathlib

/-!
Verification development for the BelegPilot receipt-extraction service.

The definitions below are a shallow embedding of the Python source:

* `app/models/schemas.py`   — `LineItem`, `ReceiptData` (pydantic models);
* `app/services/openrouter.py` — budget gate (`select_model`), pricing table
  (`MODEL_COSTS`, `estimate_cost`), retry policy of `extract_receipt`;
* `app/core/extractor_vlm.py` — `_parse_number`, `_parse_vlm_response`;
* `app/core/extractor_ocr.py` — `_normalize_date`;
* `app/core/validator.py`   — per-field scoring and `validate_and_score`;
* `app/core/categorizer.py` — keyword categorization;
* `app/core/pipeline.py`    — `_merge_results` and the orchestration in
  `process` (steps 2–6; I/O effects are abstracted into explicit outcome
  parameters).

Python floats are modelled by `ℚ`; calendar dates by their ordinal day
number (an `Int`), which is faithful for the comparisons and day arithmetic
the validator performs.  Python truthiness (`if x:`, `x or y`) is modelled
explicitly per field type.
-/

namespace BelegPilot

/-! ## Data model (`app/models/schemas.py`) -/

/-- `ExpenseCategory` enumeration (schemas.py).  Values are the string enum
members; `other` is the default. -/
inductive ExpenseCategory where
  | groceries | restaurant | transport | office
  | accommodation | entertainment | utilities | other
deriving DecidableEq, Repr

/-- `LineItem` pydantic model: description and total required, quantity and
unit price optional.  Validation (`total_must_be_positive`) lives in
`mkLineItem` below. -/
structure LineItem where
  description : String
  quantity : Option ℚ
  unit_price : Option ℚ
  total : ℚ
deriving DecidableEq, Repr

/-- Pydantic construction of a `LineItem`: the `total_must_be_positive`
field validator raises `ValueError` when `total < 0`, otherwise the value
passes through unchanged. -/
def mkLineItem (description : String) (quantity unit_price : Option ℚ)
    (total : ℚ) : Except String LineItem :=
  if total < 0 then .error "Line item total must be non-negative"
  else .ok ⟨description, quantity, unit_price, total⟩

/-- `ReceiptData` pydantic model.  The `date` field holds a calendar date,
modelled by its ordinal day number. -/
structure ReceiptData where
  vendor : Option String := none
  date : Option ℤ := none
  total_amount : Option ℚ := none
  currency : Option String := none
  tax_amount : Option ℚ := none
  tax_rate : Option ℚ := none
  line_items : List LineItem := []
  payment_method : Option String := none
  receipt_number : Option String := none
  category : ExpenseCategory := .other
deriving DecidableEq, Repr

/-! ## Python truthiness

`_merge_results` and the validator test fields with Python truthiness:
`None`, `0.0`, `""` and `[]` are falsy; any date object is truthy. -/

/-- Truthiness of an optional string: `None` and `""` are falsy. -/
def strTruthy : Option String → Bool
  | none => false
  | some s => !s.isEmpty

/-- Truthiness of an optional float: `None` and `0.0` are falsy. -/
def ratTruthy : Option ℚ → Bool
  | none => false
  | some q => q != 0

/-- Truthiness of an optional date: only `None` is falsy (date objects
define no `__bool__`). -/
def dateTruthy : Option ℤ → Bool
  | none => false
  | some _ => true

/-- Python `a or b` for optional strings. -/
def pyOrStr (a b : Option String) : Option String :=
  if strTruthy a then a else b

/-- Python `a or b` for optional floats. -/
def pyOrRat (a b : Option ℚ) : Option ℚ :=
  if ratTruthy a then a else b

/-- Python `a or b` for optional dates. -/
def pyOrDate (a b : Option ℤ) : Option ℤ :=
  if dateTruthy a then a else b

/-- Python `a or b` for lists (`[]` is falsy). -/
def pyOrList (a b : List LineItem) : List LineItem :=
  if a.isEmpty then b else a

/-! ## Budget gate (`app/services/openrouter.py`, `select_model`) -/

/-- Scope of a `BudgetExceededError`. -/
inductive BudgetScope where
  | monthly | daily
deriving DecidableEq, Repr

/-- `OpenRouterClient.select_model`, with the spends read from the ledger
and the configured limits made explicit parameters.  Rules are evaluated
top to bottom exactly as in the source. -/
def select_model (daily_spend monthly_spend daily_limit monthly_limit : ℚ)
    (default_model fallback_model : String) : Except BudgetScope String :=
  if monthly_spend ≥ monthly_limit then .error .monthly
  else if daily_spend ≥ daily_limit * (95/100) then .error .daily
  else if daily_spend ≥ daily_limit * (80/100) then .ok fallback_model
  else .ok default_model

/-! ## Pricing (`MODEL_COSTS`, `estimate_cost`) -/

/-- `MODEL_COSTS`: cost per 1M tokens, `(input, output)`, in source order. -/
def MODEL_COSTS : List (String × ℚ × ℚ) :=
  [("qwen/qwen2-vl-72b-instruct", (40/100, 40/100)),
   ("openai/gpt-4o-mini", (15/100, 60/100)),
   ("openai/gpt-4o", (250/100, 10)),
   ("qwen/qwen2-vl-7b-instruct", (10/100, 10/100))]

/-- `MODEL_COSTS.get(model, {"input": 1.0, "output": 1.0})`. -/
def modelRates (model : String) : ℚ × ℚ :=
  (MODEL_COSTS.lookup model).getD (1, 1)

/-- `OpenRouterClient.estimate_cost`. -/
def estimate_cost (model : String) (input_tokens output_tokens : ℕ) : ℚ :=
  (input_tokens : ℚ) / 1000000 * (modelRates model).1
    + (output_tokens : ℚ) / 1000000 * (modelRates model).2

/-! ## Merge (`app/core/pipeline.py`, `_merge_results`)

The source builds a fresh `ReceiptData` whose every listed field is the
Python `or` of the VLM field and the OCR field; `category` is the fresh
model's default. -/

/-- `ExtractionPipeline._merge_results`. -/
def merge_results (vlm_data ocr_data : ReceiptData) : ReceiptData where
  vendor := pyOrStr vlm_data.vendor ocr_data.vendor
  date := pyOrDate vlm_data.date ocr_data.date
  total_amount := pyOrRat vlm_data.total_amount ocr_data.total_amount
  currency := pyOrStr vlm_data.currency ocr_data.currency
  tax_amount := pyOrRat vlm_data.tax_amount ocr_data.tax_amount
  tax_rate := pyOrRat vlm_data.tax_rate ocr_data.tax_rate
  line_items := pyOrList vlm_data.line_items ocr_data.line_items
  payment_method := pyOrStr vlm_data.payment_method ocr_data.payment_method
  receipt_number := pyOrStr vlm_data.receipt_number ocr_data.receipt_number
  category := .other

/-! ## Retry policy of `extract_receipt`

The tenacity decorator on `OpenRouterClient.extract_receipt`:
`stop_after_attempt(3)`, `wait_exponential(min=1, max=10)`,
`retry_if_exception_type((HTTPStatusError, ConnectError, TimeoutException))`.
`BudgetExceededError` is not an httpx exception and is not in the tuple.
The network call itself is abstracted by an outcome function from attempt
number (starting at 1) to the attempt's result. -/

/-- Errors an `extract_receipt` attempt can raise. -/
inductive CallError where
  | httpStatusError | connectError | timeoutException | budgetExceeded
deriving DecidableEq, Repr

/-- `retry_if_exception_type((httpx.HTTPStatusError, httpx.ConnectError,
httpx.TimeoutException))`: which exceptions trigger a retry. -/
def retryable : CallError → Bool
  | .httpStatusError => true
  | .connectError => true
  | .timeoutException => true
  | .budgetExceeded => false

/-- Tenacity's retry loop: attempt `n`; on success stop; on a retryable
error retry while fuel remains, else raise.  Returns the outcome and the
number of the last attempt made. -/
def retryGo {α : Type} (outcome : ℕ → Except CallError α) :
    ℕ → ℕ → Except CallError α × ℕ
  | 0, n => (outcome n, n)
  | fuel + 1, n =>
    match outcome n with
    | .ok a => (.ok a, n)
    | .error e => if retryable e then retryGo outcome fuel (n + 1)
                  else (.error e, n)

/-- `extract_receipt` under its retry decorator: `stop_after_attempt(3)`
means at most 3 attempts, so 2 units of retry fuel after attempt 1. -/
def extract_receipt_attempts {α : Type} (outcome : ℕ → Except CallError α) :
    Except CallError α × ℕ :=
  retryGo outcome 2 1

/-- `wait_exponential(min=1, max=10)` with the default multiplier 1 and
base 2: the sleep after attempt `n` is `2^(n-1)` clamped to `[1, 10]`. -/
def retryWait (n : ℕ) : ℚ :=
  max 1 (min ((2 : ℚ) ^ (n - 1)) 10)

/-! ## OCR date normalization (`app/core/extractor_ocr.py`, `_normalize_date`)

The source applies `re.match` (prefix match) with three patterns in order:
`\d{2}[./]\d{2}[./]\d{4}`, then `\d{4}-\d{2}-\d{2}`, then
`\d{2}[./]\d{2}[./]\d{2}`. -/

/-- The `[./]` character class. -/
def isSep (c : Char) : Bool := c == '.' || c == '/'

/-- Prefix match of `(\d{2})[./](\d{2})[./](\d{4})`, returning the three
capture groups. -/
def matchDMY4 : List Char → Option (List Char × List Char × List Char)
  | d1 :: d2 :: s1 :: m1 :: m2 :: s2 :: y1 :: y2 :: y3 :: y4 :: _ =>
    if d1.isDigit && d2.isDigit && isSep s1 && m1.isDigit && m2.isDigit
        && isSep s2 && y1.isDigit && y2.isDigit && y3.isDigit && y4.isDigit
    then some ([d1, d2], [m1, m2], [y1, y2, y3, y4])
    else none
  | _ => none

/-- Prefix match of `(\d{4})-(\d{2})-(\d{2})`. -/
def matchY4MD : List Char → Option Unit
  | y1 :: y2 :: y3 :: y4 :: h1 :: m1 :: m2 :: h2 :: d1 :: d2 :: _ =>
    if y1.isDigit && y2.isDigit && y3.isDigit && y4.isDigit && h1 == '-'
        && m1.isDigit && m2.isDigit && h2 == '-' && d1.isDigit && d2.isDigit
    then some ()
    else none
  | _ => none

/-- Prefix match of `(\d{2})[./](\d{2})[./](\d{2})`. -/
def matchDMY2 : List Char → Option (List Char × List Char × List Char)
  | d1 :: d2 :: s1 :: m1 :: m2 :: s2 :: y1 :: y2 :: _ =>
    if d1.isDigit && d2.isDigit && isSep s1 && m1.isDigit && m2.isDigit
        && isSep s2 && y1.isDigit && y2.isDigit
    then some ([d1, d2], [m1, m2], [y1, y2])
    else none
  | _ => none

/-- Decimal value of a digit string (`int(...)` on captured digits). -/
def digitsToNat (cs : List Char) : ℕ :=
  cs.foldl (fun acc c => acc * 10 + (c.toNat - 48)) 0

/-- `OCRExtractor._normalize_date`. -/
def normalize_date (s : String) : Option String :=
  let cs := s.toList
  match matchDMY4 cs with
  | some (d, m, y) =>
    some (String.mk y ++ "-" ++ String.mk m ++ "-" ++ String.mk d)
  | none =>
    match matchY4MD cs with
    | some _ => some s
    | none =>
      match matchDMY2 cs with
      | some (d, m, y) =>
        let yy := digitsToNat y
        let year := if yy < 50 then 2000 + yy else 1900 + yy
        some (toString year ++ "-" ++ String.mk m ++ "-" ++ String.mk d)
      | none => none

/-! ## Confidence validator (`app/core/validator.py`)

The validator is pure; `date.today()` is threaded as the explicit
parameter `today` (an ordinal day number). -/

/-- `ReceiptValidator.WEIGHTS`, in source order. -/
def WEIGHTS : List (String × ℚ) :=
  [("vendor", 15/100), ("date", 15/100), ("total", 25/100),
   ("line_items", 25/100), ("tax", 10/100), ("format", 10/100)]

/-- `_score_vendor`: `if not data.vendor` is Python truthiness, so `None`
and `""` both score 0. -/
def score_vendor (data : ReceiptData) : ℚ :=
  match data.vendor with
  | none => 0
  | some v =>
    if v.isEmpty then 0
    else if v.length < 2 || v.length > 200 then 30/100
    else 1

/-- `_score_date`.  A stored date is always a valid `date` object, so the
`isinstance` branch takes it as-is and the `ValueError` fallback (0.1) is
unreachable; comparisons with `today ± timedelta` are ordinal
comparisons. -/
def score_date (today : ℤ) (data : ReceiptData) : ℚ :=
  match data.date with
  | none => 0
  | some d =>
    if d > today + 1 then 20/100
    else if d < today - 730 then 50/100
    else 1

/-- `_score_total`. -/
def score_total (data : ReceiptData) : ℚ :=
  match data.total_amount with
  | none => 0
  | some t =>
    if t ≤ 0 then 10/100
    else if t > 100000 then 30/100
    else 1

/-- `_score_line_items`.  `data.total_amount and data.total_amount > 0`
is truthiness followed by the comparison, which for a present value is
just `> 0`. -/
def score_line_items (data : ReceiptData) : ℚ :=
  if data.line_items.isEmpty then 30/100
  else
    match data.total_amount with
    | some t =>
      if t > 0 then
        let items_sum := (data.line_items.map LineItem.total).sum
        if items_sum > 0 then
          if 9/10 ≤ items_sum / t ∧ items_sum / t ≤ 11/10 then 1
          else if 7/10 ≤ items_sum / t ∧ items_sum / t ≤ 13/10 then 7/10
          else 40/100
        else 60/100
      else 60/100
    | none => 60/100

/-- `_score_tax`.  `if data.total_amount and data.tax_amount >
data.total_amount` tests truthiness of the total (non-`None`, non-zero)
before the comparison. -/
def score_tax (data : ReceiptData) : ℚ :=
  if data.tax_amount = none ∧ data.tax_rate = none then 50/100
  else
    let s1 : ℚ := 50/100
    let s2 :=
      match data.tax_amount with
      | some ta =>
        if ta > 0 then
          match data.total_amount with
          | some t => if t ≠ 0 ∧ ta > t then s1 + 25/100 - 30/100
                      else s1 + 25/100
          | none => s1 + 25/100
        else s1
      | none => s1
    let s3 :=
      match data.tax_rate with
      | some r =>
        if r = 7 ∨ r = 19 ∨ r = 20 ∨ r = 21 ∨ r = 25 ∨ r = 0 then s2 + 25/100
        else if 0 < r ∧ r < 30 then s2 + 15/100
        else s2
      | none => s2
    min s3 1

/-- Round-half-even to an integer (the semantics of Python `round` on the
exact value). -/
def roundHalfEven (x : ℚ) : ℤ :=
  if x - ⌊x⌋ < 1/2 then ⌊x⌋
  else if x - ⌊x⌋ > 1/2 then ⌊x⌋ + 1
  else if ⌊x⌋ % 2 = 0 then ⌊x⌋ else ⌊x⌋ + 1

/-- Python `round(x, 3)` on the exact rational value. -/
def pyRound3 (x : ℚ) : ℚ :=
  (roundHalfEven (x * 1000) : ℚ) / 1000

/-- `ReceiptValidator.validate_and_score`: per-field scores (an ordered
key–score map, as the Python dict), the rounded weighted overall, and the
data returned unchanged. -/
def validate_and_score (data : ReceiptData) (vlm_parsed_cleanly : Bool)
    (today : ℤ) : ReceiptData × ℚ × List (String × ℚ) :=
  let scores : List (String × ℚ) :=
    [("vendor", score_vendor data), ("date", score_date today data),
     ("total", score_total data), ("line_items", score_line_items data),
     ("tax", score_tax data),
     ("format", if vlm_parsed_cleanly then 1 else 30/100)]
  let overall :=
    (WEIGHTS.map (fun fw => ((scores.lookup fw.1).getD 0) * fw.2)).sum
  (data, pyRound3 overall, scores)

/-! ## JSON values (`json.loads` results fed to `_parse_vlm_response`) -/

/-- A parsed JSON value (the Python object `json.loads` returns). -/
inductive Json where
  | null
  | bool (b : Bool)
  | num (q : ℚ)
  | str (s : String)
  | arr (elements : List Json)
  | obj (fields : List (String × Json))

/-- `dict.get(k)`: the value of the first binding of `k`, if any. -/
def jget (fields : List (String × Json)) (k : String) : Option Json :=
  fields.lookup k

/-! ## Number parsing (`VLMExtractor._parse_number`) -/

/-- Python `str.strip()` on a char list. -/
def stripChars (cs : List Char) : List Char :=
  ((cs.dropWhile Char.isWhitespace).reverse.dropWhile Char.isWhitespace).reverse

/-- `value.replace(",", ".")` (single-character pattern). -/
def commaToDot (cs : List Char) : List Char :=
  cs.map (fun c => if c == ',' then '.' else c)

/-- Fractional value of the digits after a decimal point. -/
def fracVal (cs : List Char) : ℚ :=
  (digitsToNat cs : ℚ) / 10 ^ cs.length

/-- Parse `digits [. digits]` (at least one digit somewhere), returning the
value and the remaining characters. -/
def parseDecimal (cs : List Char) : Option (ℚ × List Char) :=
  let ip := cs.takeWhile Char.isDigit
  let rest := cs.dropWhile Char.isDigit
  match rest with
  | '.' :: rest2 =>
    let fp := rest2.takeWhile Char.isDigit
    let rest3 := rest2.dropWhile Char.isDigit
    if ip.isEmpty && fp.isEmpty then none
    else some ((digitsToNat ip : ℚ) + fracVal fp, rest3)
  | _ => if ip.isEmpty then none else some ((digitsToNat ip : ℚ), rest)

/-- Parse an optionally signed nonempty digit string (a float exponent). -/
def parseSignedDigits (cs : List Char) : Option ℤ :=
  match cs with
  | '+' :: t =>
    if !t.isEmpty && t.all Char.isDigit then some (digitsToNat t) else none
  | '-' :: t =>
    if !t.isEmpty && t.all Char.isDigit then some (-(digitsToNat t : ℤ))
    else none
  | t =>
    if !t.isEmpty && t.all Char.isDigit then some (digitsToNat t) else none

/-- Python `float(str)` on a finite decimal literal: optional sign,
`digits [. digits]` or `. digits` or `digits .`, optional `e`/`E`
exponent, surrounding whitespace allowed.  (`inf`/`nan` spellings and
digit-group underscores are not modelled; no receipt value uses them.) -/
def parsePyFloat (s : String) : Option ℚ :=
  let cs := stripChars s.toList
  let signed : ℚ × List Char :=
    match cs with
    | '+' :: t => (1, t)
    | '-' :: t => (-1, t)
    | t => (1, t)
  match parseDecimal signed.2 with
  | none => none
  | some (m, rest) =>
    match rest with
    | [] => some (signed.1 * m)
    | 'e' :: t => (parseSignedDigits t).map (fun e => signed.1 * m * 10 ^ e)
    | 'E' :: t => (parseSignedDigits t).map (fun e => signed.1 * m * 10 ^ e)
    | _ => none

/-- `VLMExtractor._parse_number`.  The argument is the JSON value of the
field (`Json.null` both for a present `null` and for an absent key, since
`dict.get` yields `None` in both cases).  Python `bool` is an `int`
subclass, so it is caught by the `isinstance(value, (int, float))`
branch. -/
def parse_number : Json → Option ℚ
  | .null => none
  | .bool b => some (if b then 1 else 0)
  | .num q => some q
  | .str s => parsePyFloat (String.mk (stripChars (commaToDot s.toList)))
  | .arr _ => none
  | .obj _ => none

/-! ## Calendar dates (pydantic `date` coercion)

Dates are modelled by ordinal day numbers, computed with the standard
days-from-civil algorithm; only the strict `YYYY-MM-DD` ISO form is
modelled (the form the VLM prompt mandates — pydantic's laxer coercions
such as timestamps are not exercised by this pipeline). -/

/-- Gregorian leap year. -/
def isLeap (y : ℕ) : Bool :=
  y % 4 == 0 && (y % 100 != 0 || y % 400 == 0)

/-- Days in a month. -/
def daysInMonth (y m : ℕ) : ℕ :=
  if m = 2 then (if isLeap y then 29 else 28)
  else if m = 4 ∨ m = 6 ∨ m = 9 ∨ m = 11 then 30
  else 31

/-- Ordinal day number of a civil date (days-from-civil). -/
def daysFromCivil (y : ℤ) (m d : ℕ) : ℤ :=
  let y2 := y - (if m ≤ 2 then 1 else 0)
  let era := (if 0 ≤ y2 then y2 else y2 - 399) / 400
  let yoe := y2 - era * 400
  let doy := (153 * ((m + 9) % 12) + 2) / 5 + d - 1
  let doe := yoe * 365 + yoe / 4 - yoe / 100 + (doy : ℤ)
  era * 146097 + doe

/-- Parse a strict `YYYY-MM-DD` string into an ordinal day number,
validating the calendar date. -/
def parseIsoDate (s : String) : Option ℤ :=
  match s.toList with
  | [y1, y2, y3, y4, '-', mo1, mo2, '-', d1, d2] =>
    if [y1, y2, y3, y4, mo1, mo2, d1, d2].all Char.isDigit then
      let y := digitsToNat [y1, y2, y3, y4]
      let m := digitsToNat [mo1, mo2]
      let d := digitsToNat [d1, d2]
      if 1 ≤ y ∧ 1 ≤ m ∧ m ≤ 12 ∧ 1 ≤ d ∧ d ≤ daysInMonth y m then
        some (daysFromCivil y m d)
      else none
    else none
  | _ => none

/-! ## VLM response parsing (`VLMExtractor._parse_vlm_response`)

Pydantic field validation is part of the construction: a validation
error anywhere aborts the parse (the surrounding `except` in
`VLMExtractor.extract` turns it into `None`), except inside the per-item
`try` where only that line item is dropped. -/

/-- Pydantic validation of a `str | None` field. -/
def asOptStr : Json → Option (Option String)
  | .null => some none
  | .str s => some (some s)
  | _ => none

/-- Pydantic validation of the `date | None` field. -/
def asOptDate : Json → Option (Option ℤ)
  | .null => some none
  | .str s => (parseIsoDate s).map some
  | _ => none

/-- Python `str.upper()` (the receipt currency codes are ASCII). -/
def upperAscii (s : String) : String :=
  String.mk (s.toList.map Char.toUpper)

/-- Pydantic validation of `currency`: `str | None`, `max_length=3`, then
the `currency_uppercase` field validator. -/
def asCurrency : Json → Option (Option String)
  | .null => some none
  | .str s => if s.length ≤ 3 then some (some (upperAscii s)) else none
  | _ => none

/-- One iteration step of `for item in raw.get("line_items", [])`:
iterating a list yields its elements, a string its one-character
substrings, a dict its keys; anything else raises `TypeError` (which
aborts the whole parse). -/
def jsonIterate : Json → Option (List Json)
  | .arr xs => some xs
  | .str s => some (s.toList.map (fun c => .str (String.mk [c])))
  | .obj fs => some (fs.map (fun p => Json.str p.1))
  | _ => none

/-- One line item of the VLM response: `item.get("description", "Unknown")`,
`_parse_number` on quantity/unit price, `_parse_number(...) or 0.0` for the
total, then the pydantic `LineItem` constructor; any failure (non-dict
item, non-string description, negative total) drops the item. -/
def parseLineItem (item : Json) : Option LineItem :=
  match item with
  | .obj fs =>
    match (jget fs "description").getD (.str "Unknown") with
    | .str d =>
      let total := (parse_number ((jget fs "total").getD .null)).getD 0
      (mkLineItem d (parse_number ((jget fs "quantity").getD .null))
        (parse_number ((jget fs "unit_price").getD .null)) total).toOption
    | _ => none
  | _ => none

/-- `VLMExtractor._parse_vlm_response` including the pydantic
`ReceiptData` construction; `none` is the exception path that
`VLMExtractor.extract` converts into "no data". -/
def parse_vlm_response (raw : Json) : Option ReceiptData :=
  match raw with
  | .obj fs =>
    (jsonIterate ((jget fs "line_items").getD (.arr []))).bind fun items =>
    (asOptStr ((jget fs "vendor").getD .null)).bind fun vendor =>
    (asOptDate ((jget fs "date").getD .null)).bind fun date =>
    (asCurrency ((jget fs "currency").getD .null)).bind fun currency =>
    (asOptStr ((jget fs "payment_method").getD .null)).bind
      fun payment_method =>
    (asOptStr ((jget fs "receipt_number").getD .null)).bind
      fun receipt_number =>
    some { vendor := vendor
           date := date
           total_amount := parse_number ((jget fs "total_amount").getD .null)
           currency := currency
           tax_amount := parse_number ((jget fs "tax_amount").getD .null)
           tax_rate := parse_number ((jget fs "tax_rate").getD .null)
           line_items := items.filterMap parseLineItem
           payment_method := payment_method
           receipt_number := receipt_number
           category := .other }
  | _ => none

/-! ## Categorizer (`app/core/categorizer.py`) -/

/-- `KEYWORD_CATEGORIES`, in source (dict insertion) order.  The enum
member stands for its `StrEnum` string value. -/
def KEYWORD_CATEGORIES : List (ExpenseCategory × List String) :=
  [(.groceries, ["rewe", "lidl", "aldi", "edeka", "penny", "netto",
     "kaufland", "dm", "rossmann", "supermarkt", "lebensmittel"]),
   (.restaurant, ["restaurant", "bistro", "café", "cafe", "bar", "pizza",
     "burger", "sushi", "trinkgeld", "tip", "kellner"]),
   (.transport, ["uber", "bolt", "taxi", "db", "bahn", "bvg", "tankstelle",
     "shell", "aral", "esso", "parking", "parkhaus"]),
   (.office, ["büro", "office", "staples", "papier", "drucker", "toner"]),
   (.accommodation, ["hotel", "hostel", "airbnb", "booking", "motel",
     "übernachtung", "zimmer"]),
   (.entertainment, ["kino", "cinema", "theater", "konzert", "spotify",
     "netflix", "museum"]),
   (.utilities, ["strom", "gas", "wasser", "internet", "telefon",
     "vodafone", "telekom", "o2"])]

/-- Boolean list-prefix test. -/
def headMatches : List Char → List Char → Bool
  | [], _ => true
  | _ :: _, [] => false
  | a :: as, b :: bs => a == b && headMatches as bs

/-- Python `needle in hay` substring test. -/
def containsSub (hay needle : List Char) : Bool :=
  match hay with
  | [] => headMatches needle []
  | _ :: t => headMatches needle hay || containsSub t needle

/-- Python `str.lower()` (modelled for ASCII letters; the keyword table is
already lowercase). -/
def lowerAscii (s : String) : String :=
  String.mk (s.toList.map Char.toLower)

/-- `ExpenseCategorizer.categorize`: join the lowercased vendor (when
truthy) and line-item descriptions, then return the first category one of
whose keywords occurs as a substring; `other` when none matches. -/
def categorize (data : ReceiptData) : ExpenseCategory :=
  let text_parts :=
    (match data.vendor with
     | some v => if v.isEmpty then [] else [lowerAscii v]
     | none => [])
    ++ data.line_items.map (fun it => lowerAscii it.description)
  let combined := String.intercalate " " text_parts
  match KEYWORD_CATEGORIES.find?
      (fun ck => ck.2.any (fun kw => containsSub combined.toList kw.toList))
    with
  | some ck => ck.1
  | none => .other

/-! ## Pipeline orchestration (`ExtractionPipeline.process`)

Steps 2–6 of `process`, with the effectful collaborators abstracted:
the VLM extraction attempt is an explicit outcome (parsed data plus
metadata, a budget refusal, or another failure) and the OCR extractor's
answer is an explicit `ReceiptData`.  Preprocessing, timing fields, the
result id and the best-effort DB write do not affect the modelled
fields. -/

/-- Outcome of step 2 (`self.vlm_extractor.extract(...)`):
`ok` is a completed call (whose parsed payload is `none` when the VLM
answer was unparseable), the two error cases are the `except` arms. -/
inductive VlmOutcome where
  | ok (data : Option ReceiptData) (model : String) (cost : ℚ)
  | budgetExceeded
  | otherError

/-- The fields of `ExtractionResult` that the orchestration computes. -/
structure ProcessResult where
  status : String
  data : ReceiptData
  confidence : ℚ
  extraction_method : String
  model_used : Option String
  cost_usd : ℚ
deriving Repr

/-- `ExtractionPipeline.process`, steps 2–6. -/
def process (force_ocr : Bool) (vlm : VlmOutcome) (ocr_data : ReceiptData)
    (today : ℤ) : ProcessResult :=
  -- Step 2: VLM extraction (unless force_ocr)
  let step2 : Option ReceiptData × String × Option String × ℚ :=
    if force_ocr then (none, "vlm", none, 0)
    else
      match vlm with
      | .ok d m c => (d, "vlm", some m, c)
      | .budgetExceeded => (none, "ocr", none, 0)
      | .otherError => (none, "ocr", none, 0)
  let receipt_data := step2.1
  let method := step2.2.1
  let model_used := step2.2.2.1
  let cost_usd := step2.2.2.2
  -- Step 3: validate VLM result
  let vlm_parsed := receipt_data.isSome
  let confidence : ℚ :=
    match receipt_data with
    | some rd => (validate_and_score rd true today).2.1
    | none => 0
  -- Step 4: OCR fallback if needed (`receipt_data is None or
  -- confidence < VLM_CONFIDENCE_THRESHOLD or request.force_ocr`)
  let step4 : ReceiptData × String × ℚ :=
    match receipt_data with
    | none => (ocr_data, "ocr",
        (validate_and_score ocr_data vlm_parsed today).2.1)
    | some rd =>
      if confidence < 1/2 ∨ force_ocr then
        let merged := merge_results rd ocr_data
        (merged, "hybrid", (validate_and_score merged vlm_parsed today).2.1)
      else (rd, method, confidence)
  let final_data := step4.1
  let final_method := step4.2.1
  let final_confidence := step4.2.2
  -- Step 5: categorize (data always exists here, so the
  -- `receipt_data is None` substitution of an empty record is unreachable)
  let categorized := { final_data with category := categorize final_data }
  -- Step 6: build result
  let status :=
    if final_confidence ≥ 1/2 then "success"
    else if final_confidence > 0 then "partial"
    else "failed"
  ⟨status, categorized, final_confidence, final_method, model_used, cost_usd⟩

/-! ## Claims -/

/-- C1: the budget gate evaluates its rules in the fixed source order with
first match winning — monthly exhaustion refuses, daily spend at ≥ 95% of
the daily limit refuses, at ≥ 80% selects the fallback model, otherwise
the default model; and at 79% / 85% / 96% of a positive daily limit
(monthly budget not exhausted) it selects default / fallback / refuses,
while monthly exhaustion refuses regardless of the daily state. -/
theorem C1_budget_gate (ds ms dl ml : ℚ) (dm fm : String) :
    (ms ≥ ml → select_model ds ms dl ml dm fm = .error .monthly) ∧
    (ms < ml → ds ≥ dl * (95/100) →
      select_model ds ms dl ml dm fm = .error .daily) ∧
    (ms < ml → ds < dl * (95/100) → ds ≥ dl * (80/100) →
      select_model ds ms dl ml dm fm = .ok fm) ∧
    (ms < ml → ds < dl * (95/100) → ds < dl * (80/100) →
      select_model ds ms dl ml dm fm = .ok dm) ∧
    (ms < ml → 0 < dl → select_model (dl * (79/100)) ms dl ml dm fm = .ok dm) ∧
    (ms < ml → 0 < dl → select_model (dl * (85/100)) ms dl ml dm fm = .ok fm) ∧
    (ms < ml → 0 < dl →
      select_model (dl * (96/100)) ms dl ml dm fm = .error .daily) ∧
    (ms ≥ ml → select_model (dl * (96/100)) ms dl ml dm fm = .error .monthly) := by
  refine ⟨?_, ?_, ?_, ?_, ?_, ?_, ?_, ?_⟩ <;> intros <;>
    simp only [select_model] <;> split_ifs <;> first | rfl | linarith

/-- Closed instance of `C1_budget_gate` at concrete budgets. -/
theorem C1_budget_gate_witness :
    select_model (79/100) 0 1 5 "d" "f" = .ok "d" ∧
    select_model (85/100) 0 1 5 "d" "f" = .ok "f" ∧
    select_model (96/100) 0 1 5 "d" "f" = .error .daily ∧
    select_model 0 7 1 5 "d" "f" = .error .monthly := by
  refine ⟨?_, ?_, ?_, ?_⟩
  · have h := (C1_budget_gate (79/100) 0 1 5 "d" "f").2.2.2.2.1
      (by norm_num) (by norm_num)
    norm_num at h ⊢
    exact h
  · have h := (C1_budget_gate (85/100) 0 1 5 "d" "f").2.2.2.2.2.1
      (by norm_num) (by norm_num)
    norm_num at h ⊢
    exact h
  · have h := (C1_budget_gate (96/100) 0 1 5 "d" "f").2.2.2.2.2.2.1
      (by norm_num) (by norm_num)
    norm_num at h ⊢
    exact h
  · exact (C1_budget_gate 0 7 1 5 "d" "f").1 (by norm_num)

/-- C2: the merge of a VLM result with an OCR result is a field-level
coalesce — for every field, the merged field is the VLM field when the
VLM field is present (the source's and spec's `vlm.field or ocr.field`
test: non-null and non-falsy), else the OCR field. -/
theorem C2_merge_coalesce (vlm ocr : ReceiptData) :
    (strTruthy vlm.vendor = true →
      (merge_results vlm ocr).vendor = vlm.vendor) ∧
    (strTruthy vlm.vendor = false →
      (merge_results vlm ocr).vendor = ocr.vendor) ∧
    (dateTruthy vlm.date = true → (merge_results vlm ocr).date = vlm.date) ∧
    (dateTruthy vlm.date = false → (merge_results vlm ocr).date = ocr.date) ∧
    (ratTruthy vlm.total_amount = true →
      (merge_results vlm ocr).total_amount = vlm.total_amount) ∧
    (ratTruthy vlm.total_amount = false →
      (merge_results vlm ocr).total_amount = ocr.total_amount) ∧
    (strTruthy vlm.currency = true →
      (merge_results vlm ocr).currency = vlm.currency) ∧
    (strTruthy vlm.currency = false →
      (merge_results vlm ocr).currency = ocr.currency) ∧
    (ratTruthy vlm.tax_amount = true →
      (merge_results vlm ocr).tax_amount = vlm.tax_amount) ∧
    (ratTruthy vlm.tax_amount = false →
      (merge_results vlm ocr).tax_amount = ocr.tax_amount) ∧
    (ratTruthy vlm.tax_rate = true →
      (merge_results vlm ocr).tax_rate = vlm.tax_rate) ∧
    (ratTruthy vlm.tax_rate = false →
      (merge_results vlm ocr).tax_rate = ocr.tax_rate) ∧
    (vlm.line_items.isEmpty = false →
      (merge_results vlm ocr).line_items = vlm.line_items) ∧
    (vlm.line_items.isEmpty = true →
      (merge_results vlm ocr).line_items = ocr.line_items) ∧
    (strTruthy vlm.payment_method = true →
      (merge_results vlm ocr).payment_method = vlm.payment_method) ∧
    (strTruthy vlm.payment_method = false →
      (merge_results vlm ocr).payment_method = ocr.payment_method) ∧
    (strTruthy vlm.receipt_number = true →
      (merge_results vlm ocr).receipt_number = vlm.receipt_number) ∧
    (strTruthy vlm.receipt_number = false →
      (merge_results vlm ocr).receipt_number = ocr.receipt_number) := by
  refine ⟨?_, ?_, ?_, ?_, ?_, ?_, ?_, ?_, ?_, ?_, ?_, ?_, ?_, ?_, ?_, ?_,
    ?_, ?_⟩ <;> intro h <;>
    simp [merge_results, pyOrStr, pyOrRat, pyOrDate, pyOrList, h]

/-- Closed instance of `C2_merge_coalesce`: a present VLM vendor wins, an
absent VLM total is filled from OCR. -/
theorem C2_merge_coalesce_witness :
    (merge_results { vendor := some "REWE" }
        { vendor := some "ocr", total_amount := some 5 }).vendor
      = some "REWE" ∧
    (merge_results { vendor := some "REWE" }
        { vendor := some "ocr", total_amount := some 5 }).total_amount
      = some 5 := by
  have h := C2_merge_coalesce { vendor := some "REWE" }
    { vendor := some "ocr", total_amount := some 5 }
  exact ⟨h.1 (by decide), h.2.2.2.2.2.1 (by decide)⟩

/-- C10: in the merge, a non-null but falsy VLM field (total 0.0, empty
vendor string, empty line-item list) is treated as absent and replaced by
the OCR field. -/
theorem C10_merge_falsy (vlm ocr : ReceiptData) :
    (vlm.total_amount = some 0 →
      (merge_results vlm ocr).total_amount = ocr.total_amount) ∧
    (vlm.vendor = some "" →
      (merge_results vlm ocr).vendor = ocr.vendor) ∧
    (vlm.line_items = [] →
      (merge_results vlm ocr).line_items = ocr.line_items) := by
  refine ⟨?_, ?_, ?_⟩ <;> intro h <;>
    simp [merge_results, pyOrStr, pyOrRat, pyOrList, h, strTruthy, ratTruthy,
      show "".isEmpty = true from rfl]

/-- Closed instance of `C10_merge_falsy` at concrete records. -/
theorem C10_merge_falsy_witness :
    (merge_results
        { vendor := some "", total_amount := some 0, line_items := [] }
        { vendor := some "v", total_amount := some 5,
          line_items := [⟨"x", none, none, 1⟩] }).total_amount = some 5 ∧
    (merge_results
        { vendor := some "", total_amount := some 0, line_items := [] }
        { vendor := some "v", total_amount := some 5,
          line_items := [⟨"x", none, none, 1⟩] }).vendor = some "v" ∧
    (merge_results
        { vendor := some "", total_amount := some 0, line_items := [] }
        { vendor := some "v", total_amount := some 5,
          line_items := [⟨"x", none, none, 1⟩] }).line_items
      = [⟨"x", none, none, 1⟩] := by
  have h := C10_merge_falsy
    { vendor := some "", total_amount := some 0, line_items := [] }
    { vendor := some "v", total_amount := some 5,
      line_items := [⟨"x", none, none, 1⟩] }
  exact ⟨h.1 rfl, h.2.1 rfl, h.2.2 rfl⟩

/-- C9: pydantic rejects a negative `LineItem.total` at construction and
passes a non-negative total through unchanged. -/
theorem C9_lineitem_total (d : String) (q u : Option ℚ) (t : ℚ) :
    (t < 0 → mkLineItem d q u t
      = .error "Line item total must be non-negative") ∧
    (0 ≤ t → mkLineItem d q u t = .ok ⟨d, q, u, t⟩) := by
  constructor
  · intro h
    simp [mkLineItem, h]
  · intro h
    simp [mkLineItem, not_lt.mpr h]

/-- Closed instance of `C9_lineitem_total`. -/
theorem C9_lineitem_total_witness :
    mkLineItem "a" none none (-1)
      = .error "Line item total must be non-negative" ∧
    mkLineItem "a" none none 2 = .ok ⟨"a", none, none, 2⟩ :=
  ⟨(C9_lineitem_total "a" none none (-1)).1 (by norm_num),
   (C9_lineitem_total "a" none none 2).2 (by norm_num)⟩

/-- C8: estimated cost is `(input/1e6)·input_rate + (output/1e6)·output_rate`
with the pricing-table rates for a listed model and the default rate 1.0/1.0
for an unlisted one; a $0.15/$0.60 model at 1M/1M tokens costs $0.75. -/
theorem C8_estimate_cost :
    (∀ (m : String) (r : ℚ × ℚ), MODEL_COSTS.lookup m = some r →
      ∀ i o : ℕ, estimate_cost m i o
        = (i : ℚ) / 1000000 * r.1 + (o : ℚ) / 1000000 * r.2) ∧
    (∀ (m : String), MODEL_COSTS.lookup m = none →
      ∀ i o : ℕ, estimate_cost m i o
        = (i : ℚ) / 1000000 * 1 + (o : ℚ) / 1000000 * 1) ∧
    (∀ i o : ℕ, estimate_cost "openai/gpt-4o-mini" i o
      = (i : ℚ) / 1000000 * (15/100) + (o : ℚ) / 1000000 * (60/100)) ∧
    estimate_cost "openai/gpt-4o-mini" 1000000 1000000 = 75/100 := by
  refine ⟨?_, ?_, ?_, ?_⟩
  · intro m r h i o
    simp [estimate_cost, modelRates, h]
  · intro m h i o
    simp [estimate_cost, modelRates, h]
  · intro i o
    have h : modelRates "openai/gpt-4o-mini" = (15/100, 60/100) := rfl
    simp [estimate_cost, h]
  · norm_num [estimate_cost, show modelRates "openai/gpt-4o-mini"
      = (15/100, 60/100) from rfl]

/-- Closed instance of `C8_estimate_cost`, including an unlisted model. -/
theorem C8_estimate_cost_witness :
    estimate_cost "openai/gpt-4o" 1000000 2000000 = 45/2 ∧
    estimate_cost "no-such-model" 1000000 1000000 = 2 := by
  have h1 := (C8_estimate_cost).1 "openai/gpt-4o" (250/100, 10) rfl
    1000000 2000000
  have h2 := (C8_estimate_cost).2.1 "no-such-model" rfl 1000000 1000000
  norm_num at h1 h2
  exact ⟨h1, h2⟩

/-- C6: `extract_receipt` makes at most 3 attempts; a first-attempt error
leads to a retry only when it is an HTTP status error, connection failure
or timeout; a budget refusal is raised after exactly one attempt; and the
exponential backoff starts at 1 second and is capped at 10 seconds. -/
theorem C6_retry {α : Type} (outcome : ℕ → Except CallError α) :
    (extract_receipt_attempts outcome).2 ≤ 3 ∧
    (∀ e, outcome 1 = .error e → retryable e = false →
      extract_receipt_attempts outcome = (.error e, 1)) ∧
    (outcome 1 = .error .budgetExceeded →
      extract_receipt_attempts outcome = (.error .budgetExceeded, 1)) ∧
    (∀ e, outcome 1 = .error e → (extract_receipt_attempts outcome).2 ≠ 1 →
      retryable e = true) ∧
    retryWait 1 = 1 ∧
    (∀ n, 1 ≤ retryWait n ∧ retryWait n ≤ 10) := by
  have hcount : ∀ fuel n, (retryGo outcome fuel n).2 ≤ n + fuel := by
    intro fuel
    induction fuel with
    | zero => intro n; simp [retryGo]
    | succ k ih =>
      intro n
      simp only [retryGo]
      cases outcome n with
      | ok a => exact Nat.le_add_right n (k + 1)
      | error e =>
        show (if retryable e = true then retryGo outcome k (n + 1)
          else (.error e, n)).2 ≤ n + (k + 1)
        by_cases h : retryable e = true
        · rw [if_pos h]
          calc (retryGo outcome k (n + 1)).2 ≤ n + 1 + k := ih (n + 1)
            _ = n + (k + 1) := by omega
        · rw [if_neg h]
          exact Nat.le_add_right n (k + 1)
  have hone : ∀ e, outcome 1 = .error e → retryable e = false →
      extract_receipt_attempts outcome = (.error e, 1) := by
    intro e h hr
    simp [extract_receipt_attempts, retryGo, h, hr]
  refine ⟨hcount 2 1, hone, fun h => hone _ h rfl, ?_, ?_, ?_⟩
  · intro e h hne
    by_contra hr
    simp only [Bool.not_eq_true] at hr
    exact hne (by rw [hone e h hr])
  · simp [retryWait]
  · intro n
    constructor
    · exact le_max_left 1 _
    · refine max_le (by norm_num) (min_le_right _ _)

/-- Closed instance of `C6_retry`: a budget refusal is a single attempt. -/
theorem C6_retry_witness :
    extract_receipt_attempts (fun _ => (.error .budgetExceeded :
      Except CallError ℕ)) = (.error .budgetExceeded, 1) :=
  (C6_retry (fun _ => (.error .budgetExceeded : Except CallError ℕ))).2.2.1 rfl

/-- A digit character is not a `[./]` date separator. -/
lemma digit_isSep_eq_false {c : Char} (h : c.isDigit = true) :
    isSep c = false := by
  rcases Bool.eq_false_or_eq_true (isSep c) with ht | hf
  · exfalso
    simp only [isSep, Bool.or_eq_true, beq_iff_eq] at ht
    rcases ht with rfl | rfl
    · exact absurd h (by decide)
    · exact absurd h (by decide)
  · exact hf

/-- A digit character is not a dash. -/
lemma digit_beq_dash_eq_false {c : Char} (h : c.isDigit = true) :
    (c == '-') = false := by
  rcases Bool.eq_false_or_eq_true (c == '-') with ht | hf
  · exfalso
    rw [beq_iff_eq] at ht
    subst ht
    exact absurd h (by decide)
  · exact hf

/-- C7: the OCR date normalizer maps `DD.MM.YYYY` (and `DD/MM/YYYY`) to
`YYYY-MM-DD`, leaves `YYYY-MM-DD` unchanged, and maps `DD.MM.YY` to
`YYYY-MM-DD` with two-digit years below 50 in the 2000s and others in the
1900s; concretely `"07.02.2026" ↦ "2026-02-07"`, `"2026-02-07"` is
unchanged, and `"07.02.26" ↦ "2026-02-07"`. -/
theorem C7_normalize_date :
    (∀ d1 d2 s1 m1 m2 s2 y1 y2 y3 y4 : Char,
      d1.isDigit = true → d2.isDigit = true → isSep s1 = true →
      m1.isDigit = true → m2.isDigit = true → isSep s2 = true →
      y1.isDigit = true → y2.isDigit = true → y3.isDigit = true →
      y4.isDigit = true →
      normalize_date (String.mk [d1, d2, s1, m1, m2, s2, y1, y2, y3, y4])
        = some (String.mk [y1, y2, y3, y4] ++ "-" ++ String.mk [m1, m2]
            ++ "-" ++ String.mk [d1, d2])) ∧
    (∀ y1 y2 y3 y4 m1 m2 d1 d2 : Char,
      y1.isDigit = true → y2.isDigit = true → y3.isDigit = true →
      y4.isDigit = true → m1.isDigit = true → m2.isDigit = true →
      d1.isDigit = true → d2.isDigit = true →
      normalize_date (String.mk [y1, y2, y3, y4, '-', m1, m2, '-', d1, d2])
        = some (String.mk [y1, y2, y3, y4, '-', m1, m2, '-', d1, d2])) ∧
    (∀ d1 d2 s1 m1 m2 s2 y1 y2 : Char,
      d1.isDigit = true → d2.isDigit = true → isSep s1 = true →
      m1.isDigit = true → m2.isDigit = true → isSep s2 = true →
      y1.isDigit = true → y2.isDigit = true →
      normalize_date (String.mk [d1, d2, s1, m1, m2, s2, y1, y2])
        = some (toString (if digitsToNat [y1, y2] < 50
              then 2000 + digitsToNat [y1, y2]
              else 1900 + digitsToNat [y1, y2])
            ++ "-" ++ String.mk [m1, m2] ++ "-" ++ String.mk [d1, d2])) ∧
    normalize_date "07.02.2026" = some "2026-02-07" ∧
    normalize_date "2026-02-07" = some "2026-02-07" ∧
    normalize_date "07.02.26" = some "2026-02-07" := by
  refine ⟨?_, ?_, ?_, rfl, rfl, rfl⟩
  · intro d1 d2 s1 m1 m2 s2 y1 y2 y3 y4 h1 h2 h3 h4 h5 h6 h7 h8 h9 h10
    simp [normalize_date, matchDMY4, h1, h2, h3, h4, h5, h6, h7, h8, h9, h10]
  · intro y1 y2 y3 y4 m1 m2 d1 d2 h1 h2 h3 h4 h5 h6 h7 h8
    simp [normalize_date, matchDMY4, matchY4MD, h1, h2, h3, h4, h5, h6, h7,
      h8, digit_isSep_eq_false h3]
  · intro d1 d2 s1 m1 m2 s2 y1 y2 h1 h2 h3 h4 h5 h6 h7 h8
    simp [normalize_date, matchDMY4, matchY4MD, matchDMY2, h1, h2, h3, h4,
      h5, h6, h7, h8]

/-- Closed instance of `C7_normalize_date` through its general clauses. -/
theorem C7_normalize_date_witness :
    normalize_date "31/12/2024" = some "2024-12-31" ∧
    normalize_date "1999-01-02" = some "1999-01-02" ∧
    normalize_date "01.03.99" = some "1999-03-01" := by
  refine ⟨?_, ?_, ?_⟩
  · exact C7_normalize_date.1 '3' '1' '/' '1' '2' '/' '2' '0' '2' '4'
      rfl rfl rfl rfl rfl rfl rfl rfl rfl rfl
  · exact C7_normalize_date.2.1 '1' '9' '9' '9' '0' '1' '0' '2'
      rfl rfl rfl rfl rfl rfl rfl rfl
  · have h := C7_normalize_date.2.2.1 '0' '1' '.' '0' '3' '.' '9' '9'
      rfl rfl rfl rfl rfl rfl rfl rfl
    simpa using h

/-! ### Bounds for the confidence validator -/

/-- Round-half-even of a non-negative value is non-negative. -/
lemma roundHalfEven_nonneg {x : ℚ} (hx : 0 ≤ x) : 0 ≤ roundHalfEven x := by
  have hf : (0 : ℤ) ≤ ⌊x⌋ := Int.floor_nonneg.mpr hx
  unfold roundHalfEven
  split_ifs <;> omega

/-- Round-half-even respects an integer upper bound. -/
lemma roundHalfEven_le {x : ℚ} {n : ℤ} (h : x ≤ n) : roundHalfEven x ≤ n := by
  have hf : (⌊x⌋ : ℚ) ≤ x := Int.floor_le x
  unfold roundHalfEven
  split_ifs with h1 h2 h3
  · exact_mod_cast hf.trans h
  · have : (⌊x⌋ : ℚ) ≤ (n : ℚ) - 1/2 := by linarith
    have : (⌊x⌋ : ℚ) < (n : ℚ) := by linarith
    have : ⌊x⌋ < n := by exact_mod_cast this
    omega
  · have : (⌊x⌋ : ℚ) ≤ (n : ℚ) - 1/2 := by linarith
    have : (⌊x⌋ : ℚ) < (n : ℚ) := by linarith
    have : ⌊x⌋ < n := by exact_mod_cast this
    omega
  · have : (⌊x⌋ : ℚ) ≤ (n : ℚ) - 1/2 := by linarith
    have : (⌊x⌋ : ℚ) < (n : ℚ) := by linarith
    have : ⌊x⌋ < n := by exact_mod_cast this
    omega

/-- `round(x, 3)` stays within `[0, 1]`. -/
lemma pyRound3_mem_unit {x : ℚ} (h0 : 0 ≤ x) (h1 : x ≤ 1) :
    0 ≤ pyRound3 x ∧ pyRound3 x ≤ 1 := by
  have hlo : 0 ≤ roundHalfEven (x * 1000) :=
    roundHalfEven_nonneg (by linarith)
  have hhi : roundHalfEven (x * 1000) ≤ (1000 : ℤ) :=
    roundHalfEven_le (by push_cast; linarith)
  constructor
  · unfold pyRound3
    positivity
  · unfold pyRound3
    rw [div_le_one (by norm_num)]
    exact_mod_cast hhi

/-- The vendor score lies in `[0, 1]`. -/
lemma score_vendor_mem (data : ReceiptData) :
    0 ≤ score_vendor data ∧ score_vendor data ≤ 1 := by
  simp only [score_vendor]
  repeat' split
  all_goals norm_num

/-- The date score lies in `[0, 1]`. -/
lemma score_date_mem (today : ℤ) (data : ReceiptData) :
    0 ≤ score_date today data ∧ score_date today data ≤ 1 := by
  simp only [score_date]
  repeat' split
  all_goals norm_num

/-- The total score lies in `[0, 1]`. -/
lemma score_total_mem (data : ReceiptData) :
    0 ≤ score_total data ∧ score_total data ≤ 1 := by
  simp only [score_total]
  repeat' split
  all_goals norm_num

/-- The line-items score lies in `[0, 1]`. -/
lemma score_line_items_mem (data : ReceiptData) :
    0 ≤ score_line_items data ∧ score_line_items data ≤ 1 := by
  simp only [score_line_items]
  repeat' split
  all_goals norm_num

/-- The tax score lies in `[0, 1]` (in particular it is capped at 1). -/
lemma score_tax_mem (data : ReceiptData) :
    0 ≤ score_tax data ∧ score_tax data ≤ 1 := by
  simp only [score_tax]
  repeat' split
  all_goals norm_num [le_min_iff, min_le_iff]

/-- The format score lies in `[0, 1]`. -/
lemma score_format_mem (b : Bool) :
    0 ≤ (if b then (1 : ℚ) else 30/100) ∧ (if b then (1 : ℚ) else 30/100) ≤ 1 := by
  split_ifs <;> norm_num

/-- The weighted overall of `validate_and_score`, written out. -/
lemma validate_overall_eq (data : ReceiptData) (b : Bool) (today : ℤ) :
    (validate_and_score data b today).2.1
      = pyRound3 (score_vendor data * (15/100)
          + (score_date today data * (15/100)
          + (score_total data * (25/100)
          + (score_line_items data * (25/100)
          + (score_tax data * (10/100)
          + ((if b then (1 : ℚ) else 30/100) * (10/100) + 0)))))) := rfl

/-- The overall confidence lies in `[0, 1]`. -/
lemma validate_overall_mem (data : ReceiptData) (b : Bool) (today : ℤ) :
    0 ≤ (validate_and_score data b today).2.1
      ∧ (validate_and_score data b today).2.1 ≤ 1 := by
  rw [validate_overall_eq]
  obtain ⟨v0, v1⟩ := score_vendor_mem data
  obtain ⟨d0, d1⟩ := score_date_mem today data
  obtain ⟨t0, t1⟩ := score_total_mem data
  obtain ⟨l0, l1⟩ := score_line_items_mem data
  obtain ⟨x0, x1⟩ := score_tax_mem data
  obtain ⟨f0, f1⟩ := score_format_mem b
  exact pyRound3_mem_unit (by linarith) (by linarith)

/-- C4: for every receipt and parse flag, the overall confidence is in
`[0, 1]`; every per-field score is in `[0, 1]`; the tax score is capped at
1; and the six fixed weights sum to exactly 1. -/
theorem C4_confidence (data : ReceiptData) (b : Bool) (today : ℤ) :
    0 ≤ (validate_and_score data b today).2.1 ∧
    (validate_and_score data b today).2.1 ≤ 1 ∧
    (∀ p ∈ (validate_and_score data b today).2.2, 0 ≤ p.2 ∧ p.2 ≤ 1) ∧
    score_tax data ≤ 1 ∧
    (WEIGHTS.map Prod.snd).sum = 1 := by
  obtain ⟨h0, h1⟩ := validate_overall_mem data b today
  refine ⟨h0, h1, ?_, (score_tax_mem data).2, by norm_num [WEIGHTS]⟩
  intro p hp
  simp only [validate_and_score, List.mem_cons, List.not_mem_nil,
    or_false] at hp
  rcases hp with rfl | rfl | rfl | rfl | rfl | rfl
  · exact score_vendor_mem data
  · exact score_date_mem today data
  · exact score_total_mem data
  · exact score_line_items_mem data
  · exact score_tax_mem data
  · exact score_format_mem b

/-- Closed instance of `C4_confidence` at a concrete receipt. -/
theorem C4_confidence_witness :
    0 ≤ (validate_and_score { vendor := some "REWE" } true 800000).2.1 ∧
    0 ≤ score_vendor { vendor := some "REWE" } := by
  have h := C4_confidence { vendor := some "REWE" } true 800000
  refine ⟨h.1,
    (h.2.2.1 ("vendor", score_vendor { vendor := some "REWE" }) ?_).1⟩
  simp [validate_and_score]

/-- Whatever path the orchestration takes, the final confidence is an
output of the validator. -/
lemma process_confidence_cases (fo : Bool) (vlm : VlmOutcome)
    (ocr : ReceiptData) (today : ℤ) :
    ∃ d b, (process fo vlm ocr today).confidence
      = (validate_and_score d b today).2.1 := by
  cases fo with
  | true => exact ⟨ocr, false, rfl⟩
  | false =>
    cases vlm with
    | budgetExceeded => exact ⟨ocr, false, rfl⟩
    | otherError => exact ⟨ocr, false, rfl⟩
    | ok d m c =>
      cases d with
      | none => exact ⟨ocr, false, rfl⟩
      | some rd =>
        simp only [process, Bool.false_eq_true, if_false, or_false,
          Option.isSome_some]
        split
        · exact ⟨_, _, rfl⟩
        · exact ⟨_, _, rfl⟩

/-- C5: the final status is derived from the final confidence exactly as
`confidence ≥ 0.5 → "success"`, `0 < confidence < 0.5 → "partial"`,
`confidence = 0 → "failed"` (and the confidence is never negative, so the
three cases are exhaustive). -/
theorem C5_status (force_ocr : Bool) (vlm : VlmOutcome)
    (ocr_data : ReceiptData) (today : ℤ) :
    0 ≤ (process force_ocr vlm ocr_data today).confidence ∧
    (process force_ocr vlm ocr_data today).status
      = (if (process force_ocr vlm ocr_data today).confidence ≥ 1/2
          then "success"
          else if (process force_ocr vlm ocr_data today).confidence > 0
            then "partial"
            else "failed") := by
  constructor
  · obtain ⟨d, b, h⟩ := process_confidence_cases force_ocr vlm ocr_data today
    rw [h]
    exact (validate_overall_mem d b today).1
  · rfl

/-- C3 counterexample: a line item `{}` with no `description` and no
`total` key parses to the non-null placeholders `"Unknown"` and `0.0`,
refuting "no absent line-item field is replaced with a non-null
placeholder value". -/
theorem C3_counterexample :
    jget [] "description" = none ∧ jget [] "total" = none ∧
    parse_vlm_response (.obj [("line_items", .arr [.obj []])])
      = some ⟨none, none, none, none, none, none,
          [⟨"Unknown", none, none, 0⟩], none, none, .other⟩ :=
  ⟨rfl, rfl, rfl⟩

/-- C3 (amended): every absent top-level field parses to null (the absent
`line_items` key gives the empty list), and absent line-item `quantity`
and `unit_price` parse to null — but an absent line-item `description`
defaults to the placeholder `"Unknown"` and an absent line-item `total`
defaults to `0.0`. -/
theorem C3_absent_fields :
    (∀ (fs : List (String × Json)) (r : ReceiptData),
      parse_vlm_response (.obj fs) = some r →
      (jget fs "vendor" = none → r.vendor = none) ∧
      (jget fs "date" = none → r.date = none) ∧
      (jget fs "total_amount" = none → r.total_amount = none) ∧
      (jget fs "currency" = none → r.currency = none) ∧
      (jget fs "tax_amount" = none → r.tax_amount = none) ∧
      (jget fs "tax_rate" = none → r.tax_rate = none) ∧
      (jget fs "line_items" = none → r.line_items = []) ∧
      (jget fs "payment_method" = none → r.payment_method = none) ∧
      (jget fs "receipt_number" = none → r.receipt_number = none)) ∧
    (∀ (ifs : List (String × Json)) (li : LineItem),
      parseLineItem (.obj ifs) = some li →
      (jget ifs "quantity" = none → li.quantity = none) ∧
      (jget ifs "unit_price" = none → li.unit_price = none) ∧
      (jget ifs "description" = none → li.description = "Unknown") ∧
      (jget ifs "total" = none → li.total = 0)) := by
  constructor
  · intro fs r h
    simp only [parse_vlm_response, Option.bind_eq_some] at h
    obtain ⟨items, hitems, vnd, hvnd, dt, hdt, cur, hcur, pm, hpm,
      rn, hrn, heq⟩ := h
    rw [Option.some_inj] at heq
    subst heq
    refine ⟨?_, ?_, ?_, ?_, ?_, ?_, ?_, ?_, ?_⟩ <;> intro h0
    · rw [h0] at hvnd
      simpa [asOptStr] using hvnd.symm
    · rw [h0] at hdt
      simpa [asOptDate] using hdt.symm
    · show parse_number ((jget fs "total_amount").getD .null) = none
      rw [h0]
      rfl
    · rw [h0] at hcur
      simpa [asCurrency] using hcur.symm
    · show parse_number ((jget fs "tax_amount").getD .null) = none
      rw [h0]
      rfl
    · show parse_number ((jget fs "tax_rate").getD .null) = none
      rw [h0]
      rfl
    · rw [h0] at hitems
      show items.filterMap parseLineItem = []
      have : items = [] := by simpa [jsonIterate] using hitems.symm
      rw [this]
      rfl
    · rw [h0] at hpm
      simpa [asOptStr] using hpm.symm
    · rw [h0] at hrn
      simpa [asOptStr] using hrn.symm
  · intro ifs li h
    simp only [parseLineItem] at h
    cases hdesc : (jget ifs "description").getD (.str "Unknown") with
    | str d =>
      rw [hdesc] at h
      by_cases htot :
          (parse_number ((jget ifs "total").getD .null)).getD 0 < 0
      · simp [mkLineItem, htot, Except.toOption] at h
      · simp only [mkLineItem, htot, if_neg, if_false,
          Except.toOption, Option.some_inj] at h
        subst h
        refine ⟨?_, ?_, ?_, ?_⟩ <;> intro h0
        · show parse_number ((jget ifs "quantity").getD .null) = none
          rw [h0]
          rfl
        · show parse_number ((jget ifs "unit_price").getD .null) = none
          rw [h0]
          rfl
        · rw [h0] at hdesc
          injection hdesc with hd
          exact hd.symm
        · show (parse_number ((jget ifs "total").getD .null)).getD 0 = 0
          rw [h0]
          rfl
    | null => rw [hdesc] at h; exact absurd h (by simp)
    | bool b => rw [hdesc] at h; exact absurd h (by simp)
    | num q => rw [hdesc] at h; exact absurd h (by simp)
    | arr xs => rw [hdesc] at h; exact absurd h (by simp)
    | obj gs => rw [hdesc] at h; exact absurd h (by simp)

/-- Closed instance of `C3_absent_fields` on the empty JSON object and the
empty line item. -/
theorem C3_absent_fields_witness :
    ({} : ReceiptData).vendor = none ∧
    (⟨"Unknown", none, none, 0⟩ : LineItem).description = "Unknown" :=
  ⟨(C3_absent_fields.1 [] {} rfl).1 rfl,
   (C3_absent_fields.2 [] ⟨"Unknown", none, none, 0⟩ rfl).2.2.1 rfl⟩

end BelegPilot
